import Mathlib

/-!
Shallow embedding of `src/multistub.ts` (janwilmake/multistub): a broadcast
RPC dispatcher over Cloudflare Durable Object stubs together with a
location resolver.  Pure functions of the source become Lean functions;
the effectful proxy invocation (lines 213-245 of the source) becomes an
explicit record of the caller-visible result and of the background tasks
registered with the execution context.
-/

namespace Multistub

/-- Lines 13-22 of src/multistub.ts: the `CloudflareLocation` union of the
nine supported macro-region codes. -/
inductive CloudflareLocation where
  | wnam
  | enam
  | sam
  | weur
  | eeur
  | apac
  | oc
  | afr
  | me
deriving DecidableEq, Repr, Fintype

/-- The string literal each `CloudflareLocation` union member stands for in
the TypeScript source. -/
def CloudflareLocation.code : CloudflareLocation → String
  | .wnam => "wnam"
  | .enam => "enam"
  | .sam => "sam"
  | .weur => "weur"
  | .eeur => "eeur"
  | .apac => "apac"
  | .oc => "oc"
  | .afr => "afr"
  | .me => "me"

/-- The options bag accepted by `namespace.get` in the source; only the
`locationHint` member is ever used by this repository. -/
structure GetDurableObjectOptions where
  locationHint : Option CloudflareLocation
deriving DecidableEq, Repr

/-- Lines 4-8 of src/multistub.ts: configuration for a single DO in the
multi-stub.  All three fields are optional in the source. -/
structure MultiStubConfig where
  name : Option String
  id : Option String
  config : Option GetDurableObjectOptions
deriving DecidableEq, Repr

/-- The `request.cf` object as far as this repository reads it: only the
`colo` member (the point-of-presence code), which may be absent. -/
structure RequestCf where
  colo : Option String
deriving DecidableEq, Repr

/-- An inbound request as far as this repository reads it: only the optional
`cf` metadata object. -/
structure Request where
  cf : Option RequestCf
deriving DecidableEq, Repr

/-- The `locations` array defined on lines 28-38 of src/multistub.ts inside
`getGlobalConfig`. -/
def locations : List CloudflareLocation :=
  [.wnam, .enam, .sam, .weur, .eeur, .apac, .oc, .afr, .me]

/-- Lines 27-44 of src/multistub.ts: `getGlobalConfig` maps every location
to a config named `global-` + location with that location as placement
hint. -/
def getGlobalConfig : List MultiStubConfig :=
  locations.map (fun location =>
    { name := some ("global-" ++ location.code)
      id := none
      config := some { locationHint := some location } })

/-- Lines 60-147 of src/multistub.ts: the `locationMap` from Cloudflare
point-of-presence (colo) codes to macro-regions.  A code absent from the
table yields `none`. -/
def locationMap : String → Option CloudflareLocation := fun colo =>
  match colo with
  | "SFO" => some .wnam
  | "LAX" => some .wnam
  | "SEA" => some .wnam
  | "DEN" => some .wnam
  | "PHX" => some .wnam
  | "SJC" => some .wnam
  | "PDX" => some .wnam
  | "LAS" => some .wnam
  | "SLC" => some .wnam
  | "NYC" => some .enam
  | "MIA" => some .enam
  | "ATL" => some .enam
  | "BOS" => some .enam
  | "CHI" => some .enam
  | "DFW" => some .enam
  | "IAD" => some .enam
  | "ORD" => some .enam
  | "YYZ" => some .enam
  | "GRU" => some .sam
  | "SCL" => some .sam
  | "BOG" => some .sam
  | "LIM" => some .sam
  | "EZE" => some .sam
  | "LHR" => some .weur
  | "CDG" => some .weur
  | "AMS" => some .weur
  | "FRA" => some .weur
  | "MAD" => some .weur
  | "MAN" => some .weur
  | "DUB" => some .weur
  | "ZUR" => some .weur
  | "MXP" => some .weur
  | "WAW" => some .eeur
  | "BUD" => some .eeur
  | "PRG" => some .eeur
  | "VIE" => some .eeur
  | "BUH" => some .eeur
  | "SOF" => some .eeur
  | "ATH" => some .eeur
  | "HEL" => some .eeur
  | "NRT" => some .apac
  | "HKG" => some .apac
  | "SIN" => some .apac
  | "ICN" => some .apac
  | "TPE" => some .apac
  | "BOM" => some .apac
  | "DEL" => some .apac
  | "BKK" => some .apac
  | "KUL" => some .apac
  | "MNL" => some .apac
  | "CGK" => some .apac
  | "PVG" => some .apac
  | "SYD" => some .oc
  | "MEL" => some .oc
  | "PER" => some .oc
  | "BNE" => some .oc
  | "AKL" => some .oc
  | "CPT" => some .afr
  | "JNB" => some .afr
  | "LOS" => some .afr
  | "CAI" => some .afr
  | "CAS" => some .afr
  | "DXB" => some .me
  | "DOH" => some .me
  | "KWI" => some .me
  | "BAH" => some .me
  | "AMM" => some .me
  | "TLV" => some .me
  | "RUH" => some .me
  | _ => none

/-- Lines 49-150 of src/multistub.ts: `getClosestLocation`.  A missing `cf`
object, a missing or empty (falsy) `colo`, or a colo code absent from
`locationMap` all fall back to `wnam`. -/
def getClosestLocation (request : Request) : CloudflareLocation :=
  match request.cf with
  | none => .wnam
  | some cf =>
    match cf.colo with
    | none => .wnam
    | some colo =>
      if colo == "" then .wnam
      else (locationMap colo).getD .wnam

/-- The outcome of one synchronous JavaScript call: a returned value (which
may itself be a promise that settles later) or a synchronously thrown
exception carrying a message. -/
inductive Outcome (V : Type) where
  | ok : V → Outcome V
  | thrown : String → Outcome V
deriving DecidableEq, Repr

/-- Argument lists passed through the dispatcher unchanged. -/
abbrev Args (V : Type) := List V

/-- One member (property) of a stub object: a plain non-callable value, or a
callable method taking an argument list to an outcome. -/
inductive Member (V : Type) where
  | value : V → Member V
  | fn : (Args V → Outcome V) → Member V

/-- A Durable Object stub: a member for every property name. -/
def Stub (V : Type) : Type := String → Member V

/-- The slice of `DurableObjectNamespace` this repository consumes:
`idFromName`, `idFromString` and `get`. -/
structure DurableObjectNamespace (V : Type) where
  idFromName : String → String
  idFromString : String → String
  get : String → Option GetDurableObjectOptions → Stub V

/-- JavaScript truthiness of an optional string: absent and empty strings
are falsy. -/
def truthy : Option String → Bool
  | none => false
  | some s => !(s == "")

/-- Lines 187-196 of src/multistub.ts: the body of the `configs.map`
callback inside `getMultiStub` — resolve one config to a stub, trying
`name` first, then `id`, else throw. -/
def resolveStub {V : Type} (ns : DurableObjectNamespace V) (config : MultiStubConfig) :
    Except String (Stub V) :=
  if truthy config.name then
    .ok (ns.get (ns.idFromName (config.name.getD "")) config.config)
  else if truthy config.id then
    .ok (ns.get (ns.idFromString (config.id.getD "")) config.config)
  else
    .error "Either name or id must be provided for each DO config"

/-- Lines 177-199 of src/multistub.ts: the construction phase of
`getMultiStub` — the empty-configs guard, the per-config stub resolution
(left to right, throwing at the first invalid config), and the split into
`stubs[0]` (primary) and `stubs.slice(1)` (secondaries). -/
def getMultiStub {V : Type} (ns : DurableObjectNamespace V)
    (configs : List MultiStubConfig) : Except String (Stub V × List (Stub V)) :=
  match configs with
  | [] => .error "At least one DO configuration is required"
  | c :: cs => do
    let primaryStub ← resolveStub ns c
    let secondaryStubs ← cs.mapM (resolveStub ns)
    pure (primaryStub, secondaryStubs)

/-- The settled record of one secondary inside the background operation:
either its member was a function and was invoked with the given arguments
(the outcome — including a caught throw — is recorded, never propagated),
or the member was not a function and nothing was invoked. -/
inductive SecResult (V : Type) where
  | invoked : Args V → Outcome V → SecResult V
  | notAFunction : SecResult V
deriving DecidableEq, Repr

/-- Lines 223-236 of src/multistub.ts: the per-secondary callback of the
background operation — look up the member, invoke it when it is a
function, and catch (rather than propagate) anything it throws. -/
def runSecondary {V : Type} (stub : Stub V) (prop : String) (args : Args V) :
    SecResult V :=
  match stub prop with
  | .fn method => .invoked args (method args)
  | .value _ => .notAFunction

/-- Lines 222-239 of src/multistub.ts: the `backgroundExecution` closure —
run every secondary and wait for all of them to settle
(`Promise.allSettled`), producing one settled record per secondary. -/
def backgroundExecution {V : Type} (secondaryStubs : List (Stub V))
    (prop : String) (args : Args V) : List (SecResult V) :=
  secondaryStubs.map (fun stub => runSecondary stub prop args)

/-- The caller-visible effect of invoking one wrapped member: the result
returned (or synchronously thrown) to the caller, and the list of
background tasks registered with `ctx.waitUntil` during the call. -/
structure CallEffect (V : Type) where
  result : Outcome V
  registeredTasks : List (List (SecResult V))
deriving DecidableEq, Repr

/-- Lines 202-246 of src/multistub.ts: the proxy `get` trap together with
the wrapped function it returns.  A non-callable member is passed through
unchanged (`none`: no wrapped invocation exists).  For a callable member,
the primary is invoked first; a synchronous throw escapes before
`ctx.waitUntil` is ever reached; otherwise exactly one background task is
registered when secondaries exist, and the primary result is returned
unchanged. -/
def invokeMember {V : Type} (primaryStub : Stub V) (secondaryStubs : List (Stub V))
    (prop : String) (args : Args V) : Option (CallEffect V) :=
  match primaryStub prop with
  | .value _ => none
  | .fn f =>
    match f args with
    | .thrown e => some { result := .thrown e, registeredTasks := [] }
    | .ok v =>
      if secondaryStubs.length > 0 then
        some { result := .ok v
               registeredTasks := [backgroundExecution secondaryStubs prop args] }
      else
        some { result := .ok v, registeredTasks := [] }

/-- Lines 155-171 of src/multistub.ts: `getClosestStub` — build the config
for the region closest to the request and resolve it by name. -/
def getClosestStub {V : Type} (ns : DurableObjectNamespace V) (request : Request) :
    Except String (Stub V) :=
  let location := getClosestLocation request
  let config : MultiStubConfig :=
    { name := some ("global-" ++ location.code)
      id := none
      config := some { locationHint := some location } }
  if truthy config.name then
    .ok (ns.get (ns.idFromName (config.name.getD "")) config.config)
  else
    .error "Failed to create closest stub"

/-- Lines 253-266 of src/multistub.ts: `getGlobalStubs` — assemble the
closest-location reader and the global multi-stub writer; no member is
invoked here. -/
structure GlobalStubs (V : Type) where
  reader : Stub V
  writer : Stub V × List (Stub V)

/-- Lines 253-266 of src/multistub.ts: the body of `getGlobalStubs`. -/
def getGlobalStubs {V : Type} (ns : DurableObjectNamespace V) (request : Request) :
    Except String (GlobalStubs V) := do
  let globalConfigs := getGlobalConfig
  let closestStub ← getClosestStub ns request
  let globalMultiStub ← getMultiStub ns globalConfigs
  pure { reader := closestStub, writer := globalMultiStub }

/-- A concrete stub whose every member is a method returning `n`; used only
to instantiate theorems at concrete inputs. -/
def constStub (n : Nat) : Stub Nat := fun _ => .fn (fun _ => .ok n)

/-- A concrete stub whose every member is a method that throws
synchronously; used only to instantiate theorems at concrete inputs. -/
def throwingStub : Stub Nat := fun _ => .fn (fun _ => .thrown "boom")

/-- A concrete namespace over `Nat` stubs; used only to instantiate
theorems at concrete inputs. -/
def natNS : DurableObjectNamespace Nat :=
  { idFromName := fun n => n
    idFromString := fun i => i
    get := fun _ _ => constStub 0 }

/-- Whether an `Except` value is a success; used to state counterexamples
whose payload contains functions and so cannot be compared decidably. -/
def exceptOk {E A : Type} : Except E A → Bool
  | .ok _ => true
  | .error _ => false

/-- C4: calling `getMultiStub` with an empty config list fails with the
configuration error for every namespace — the error is produced by the
guard alone, before any stub is resolved from the namespace and before any
remote call could be attempted. -/
theorem empty_configs_error {V : Type} (ns : DurableObjectNamespace V) :
    getMultiStub ns [] = .error "At least one DO configuration is required" := rfl

/-- C5: `getClosestLocation` is total and defaults to `wnam`: every request
yields a defined region; a request with no `cf`, a request with no colo
code, and a request whose colo code is absent from the lookup table all
yield `wnam`; "LAX" maps to `wnam` and "FRA" maps to `weur`; the unknown
code "XYZ" maps to `wnam`. -/
theorem getClosestLocation_total :
    (∀ r : Request, ∃ loc : CloudflareLocation, getClosestLocation r = loc) ∧
    getClosestLocation { cf := none } = .wnam ∧
    getClosestLocation { cf := some { colo := none } } = .wnam ∧
    (∀ c : String, locationMap c = none →
      getClosestLocation { cf := some { colo := some c } } = .wnam) ∧
    getClosestLocation { cf := some { colo := some "LAX" } } = .wnam ∧
    getClosestLocation { cf := some { colo := some "FRA" } } = .weur ∧
    getClosestLocation { cf := some { colo := some "XYZ" } } = .wnam := by
  refine ⟨fun r => ⟨_, rfl⟩, rfl, rfl, ?_, by decide, by decide, by decide⟩
  intro c hc
  simp only [getClosestLocation, hc]
  split
  · rfl
  · rfl

/-- Witness for C5: the concrete unknown colo code "QQQ" is absent from the
table and classifies to `wnam`. -/
theorem getClosestLocation_total_witness :
    getClosestLocation { cf := some { colo := some "QQQ" } } = .wnam :=
  getClosestLocation_total.2.2.2.1 "QQQ" rfl

/-- C6: `getGlobalConfig` is a fixed constant list: it has exactly nine
entries, equal to the explicit order-stable list below (one per
macro-region, each named `global-` + region with that region as placement
hint and no `id`); every macro-region's descriptor occurs in it, and the
nine names are pairwise distinct. -/
theorem getGlobalConfig_fixed :
    getGlobalConfig.length = 9 ∧
    getGlobalConfig =
      [{ name := some "global-wnam", id := none, config := some { locationHint := some .wnam } },
       { name := some "global-enam", id := none, config := some { locationHint := some .enam } },
       { name := some "global-sam", id := none, config := some { locationHint := some .sam } },
       { name := some "global-weur", id := none, config := some { locationHint := some .weur } },
       { name := some "global-eeur", id := none, config := some { locationHint := some .eeur } },
       { name := some "global-apac", id := none, config := some { locationHint := some .apac } },
       { name := some "global-oc", id := none, config := some { locationHint := some .oc } },
       { name := some "global-afr", id := none, config := some { locationHint := some .afr } },
       { name := some "global-me", id := none, config := some { locationHint := some .me } }] ∧
    (∀ loc : CloudflareLocation,
      ({ name := some ("global-" ++ loc.code), id := none,
         config := some { locationHint := some loc } } : MultiStubConfig)
        ∈ getGlobalConfig) ∧
    (getGlobalConfig.map (fun c => c.name)).Nodup := by
  refine ⟨rfl, by decide, by decide, by decide⟩

/-- C1: invoking a callable member through the proxy yields exactly the
primary stub's own outcome for the same member and arguments — value or
synchronous failure, unchanged and unsuppressed — for every secondary
list, since the result does not depend on the secondaries at all. -/
theorem primary_result_passthrough {V : Type} (p : Stub V) (secs : List (Stub V))
    (prop : String) (args : Args V) (f : Args V → Outcome V) (hf : p prop = .fn f) :
    ∃ eff : CallEffect V, invokeMember p secs prop args = some eff ∧ eff.result = f args := by
  simp only [invokeMember, hf]
  cases hr : f args with
  | thrown e => exact ⟨_, rfl, rfl⟩
  | ok v =>
    dsimp only
    by_cases h : secs.length > 0
    · rw [if_pos h]
      exact ⟨_, rfl, rfl⟩
    · rw [if_neg h]
      exact ⟨_, rfl, rfl⟩

/-- Witness for C1: on a concrete primary returning 7 with a throwing
secondary, the proxy invocation returns 7. -/
theorem primary_result_passthrough_witness :
    ∃ eff : CallEffect Nat,
      invokeMember (constStub 7) [throwingStub] "m" [1] = some eff ∧
      eff.result = .ok 7 :=
  primary_result_passthrough (constStub 7) [throwingStub] "m" [1] (fun _ => .ok 7) rfl

/-- C10: when the primary's member throws synchronously, the exception
propagates to the caller and the wrapped function never reaches
`ctx.waitUntil`: no background task is registered, so no secondary stub
receives any invocation for that call. -/
theorem sync_throw_skips_background {V : Type} (p : Stub V) (secs : List (Stub V))
    (prop : String) (args : Args V) (f : Args V → Outcome V) (e : String)
    (hf : p prop = .fn f) (he : f args = .thrown e) :
    invokeMember p secs prop args = some { result := .thrown e, registeredTasks := [] } := by
  simp only [invokeMember, hf, he]

/-- Witness for C10 on a concrete throwing primary with one secondary. -/
theorem sync_throw_skips_background_witness :
    invokeMember throwingStub [constStub 0] "n" [] =
      some { result := .thrown "boom", registeredTasks := [] } :=
  sync_throw_skips_background throwingStub [constStub 0] "n" []
    (fun _ => .thrown "boom") "boom" rfl rfl

/-- C3: secondary failures are isolated and the background operation never
short-circuits: the background operation settles one record per secondary
(its length always equals the number of secondaries), the record at each
index depends only on that secondary, a secondary whose method throws has
the throw caught and recorded (never propagated), and the caller's result
is the same for any two secondary lists. -/
theorem secondary_isolation {V : Type} (p : Stub V) (secs : List (Stub V))
    (prop : String) (args : Args V) :
    (backgroundExecution secs prop args).length = secs.length ∧
    (∀ i : Nat, (backgroundExecution secs prop args).get? i
        = (secs.get? i).map (fun s => runSecondary s prop args)) ∧
    (∀ s : Stub V, ∀ g : Args V → Outcome V, ∀ e : String,
        s prop = .fn g → g args = .thrown e →
        runSecondary s prop args = .invoked args (.thrown e)) ∧
    (∀ secs' : List (Stub V),
        (invokeMember p secs prop args).map CallEffect.result
          = (invokeMember p secs' prop args).map CallEffect.result) := by
  refine ⟨List.length_map _ _, ?_, ?_, ?_⟩
  · intro i
    simp [backgroundExecution]
  · intro s g e hg he
    simp [runSecondary, hg, he]
  · intro secs'
    cases hp : p prop with
    | value v => simp [invokeMember, hp]
    | fn f =>
      simp only [invokeMember, hp]
      cases hr : f args with
      | thrown e => rfl
      | ok v =>
        by_cases h1 : secs.length > 0 <;> by_cases h2 : secs'.length > 0 <;>
          simp [h1, h2]

/-- Witness for C3: a concrete throwing secondary's failure is caught and
recorded. -/
theorem secondary_isolation_witness :
    runSecondary throwingStub "m" [2] = .invoked [2] (.thrown "boom") :=
  (secondary_isolation (constStub 1) [throwingStub] "m" [2]).2.2.1 throwingStub
    (fun _ => .thrown "boom") "boom" rfl rfl

/-- Counterexample to C2 as stated: on a proxy with one secondary present,
invoking a callable member whose primary invocation throws synchronously
registers zero background operations, not exactly one. -/
theorem background_registration_counterexample :
    (invokeMember throwingStub [constStub 0] "m" []).map
        (fun eff => eff.registeredTasks.length) = some 0 := rfl

/-- C2 (amended): when secondaries exist and the primary invocation returns
rather than throwing synchronously, exactly one background operation is
registered, and within it every secondary stub is run exactly once — one
settled record per secondary, in order — each callable secondary member
being invoked with the identical argument list as the primary. -/
theorem background_registration_amended {V : Type} (p : Stub V) (secs : List (Stub V))
    (prop : String) (args : Args V) (f : Args V → Outcome V) (v : V)
    (hf : p prop = .fn f) (hv : f args = .ok v) (hsec : secs ≠ []) :
    invokeMember p secs prop args =
      some { result := .ok v, registeredTasks := [backgroundExecution secs prop args] } ∧
    (backgroundExecution secs prop args).length = secs.length ∧
    (∀ i : Nat, ∀ s : Stub V, secs.get? i = some s →
      (backgroundExecution secs prop args).get? i = some (runSecondary s prop args)) ∧
    (∀ s : Stub V, ∀ g : Args V → Outcome V, s prop = .fn g →
      runSecondary s prop args = .invoked args (g args)) := by
  refine ⟨?_, List.length_map _ _, ?_, ?_⟩
  · simp only [invokeMember, hf, hv]
    rw [if_pos (List.length_pos.mpr hsec)]
  · intro i s hs
    rw [List.get?_eq_getElem?] at hs
    simp [backgroundExecution, hs]
  · intro s g hg
    simp [runSecondary, hg]

/-- Witness for the amended C2 on a concrete primary returning 7 and one
throwing secondary. -/
theorem background_registration_amended_witness :
    invokeMember (constStub 7) [throwingStub] "m" [3] =
      some { result := .ok 7,
             registeredTasks := [backgroundExecution [throwingStub] "m" [3]] } :=
  (background_registration_amended (constStub 7) [throwingStub] "m" [3]
      (fun _ => .ok 7) 7 rfl rfl (List.cons_ne_nil _ _)).1

/-- Helper: `getClosestStub` always resolves the stub named `global-` +
the classified region, with that region as placement hint (the name is
never empty, so the truthiness guard always passes). -/
theorem closestStub_resolves {V : Type} (ns : DurableObjectNamespace V) (r : Request) :
    getClosestStub ns r =
      .ok (ns.get (ns.idFromName ("global-" ++ (getClosestLocation r).code))
            (some { locationHint := some (getClosestLocation r) })) := by
  have h9 : ∀ loc : CloudflareLocation,
      truthy (some ("global-" ++ loc.code)) = true := by decide
  simp only [getClosestStub]
  rw [if_pos (h9 (getClosestLocation r))]
  rfl

/-- Helper: `getMultiStub` over the global config resolves, for any
namespace, to the nine regional stubs in enumeration order with the
`global-wnam` stub as primary. -/
theorem multiStub_global {V : Type} (ns : DurableObjectNamespace V) :
    getMultiStub ns getGlobalConfig = .ok
      (ns.get (ns.idFromName "global-wnam") (some { locationHint := some .wnam }),
       [ns.get (ns.idFromName "global-enam") (some { locationHint := some .enam }),
        ns.get (ns.idFromName "global-sam") (some { locationHint := some .sam }),
        ns.get (ns.idFromName "global-weur") (some { locationHint := some .weur }),
        ns.get (ns.idFromName "global-eeur") (some { locationHint := some .eeur }),
        ns.get (ns.idFromName "global-apac") (some { locationHint := some .apac }),
        ns.get (ns.idFromName "global-oc") (some { locationHint := some .oc }),
        ns.get (ns.idFromName "global-afr") (some { locationHint := some .afr }),
        ns.get (ns.idFromName "global-me") (some { locationHint := some .me })]) := rfl

/-- C7: `getGlobalStubs` only assembles — for every request it returns the
reader resolved for the region classified from the request's origin
(placement hint included) and the writer as the broadcast pair over all
nine regional replicas with the first-listed region `wnam` as primary; in
particular a request whose colo is "FRA" classifies to `weur`. -/
theorem getGlobalStubs_assembly {V : Type} (ns : DurableObjectNamespace V) :
    (∀ r : Request, getGlobalStubs ns r = .ok
      { reader := ns.get (ns.idFromName ("global-" ++ (getClosestLocation r).code))
          (some { locationHint := some (getClosestLocation r) })
        writer :=
          (ns.get (ns.idFromName "global-wnam") (some { locationHint := some .wnam }),
           [ns.get (ns.idFromName "global-enam") (some { locationHint := some .enam }),
            ns.get (ns.idFromName "global-sam") (some { locationHint := some .sam }),
            ns.get (ns.idFromName "global-weur") (some { locationHint := some .weur }),
            ns.get (ns.idFromName "global-eeur") (some { locationHint := some .eeur }),
            ns.get (ns.idFromName "global-apac") (some { locationHint := some .apac }),
            ns.get (ns.idFromName "global-oc") (some { locationHint := some .oc }),
            ns.get (ns.idFromName "global-afr") (some { locationHint := some .afr }),
            ns.get (ns.idFromName "global-me") (some { locationHint := some .me })]) }) ∧
    getClosestLocation { cf := some { colo := some "FRA" } } = .weur := by
  refine ⟨?_, rfl⟩
  intro r
  simp only [getGlobalStubs]
  rw [closestStub_resolves, multiStub_global]
  rfl

/-- C9: the reader is always a member of the writer's replica set — the
derived name `global-` + classified region matches exactly one of the nine
global configs, that config's placement hint is the classified region, and
`getClosestStub` resolves precisely that name and hint. -/
theorem reader_in_writer_set {V : Type} (ns : DurableObjectNamespace V) (r : Request) :
    getGlobalConfig.filter
        (fun c => c.name == some ("global-" ++ (getClosestLocation r).code))
      = [{ name := some ("global-" ++ (getClosestLocation r).code), id := none,
           config := some { locationHint := some (getClosestLocation r) } }] ∧
    getClosestStub ns r =
      .ok (ns.get (ns.idFromName ("global-" ++ (getClosestLocation r).code))
            (some { locationHint := some (getClosestLocation r) })) := by
  constructor
  · cases h : getClosestLocation r <;> decide
  · exact closestStub_resolves ns r

/-- Counterexample to C8 as stated: a config carrying both `name` and `id`
is accepted without any configuration error — construction succeeds, so
"exactly one must be present" is not enforced by the code. -/
theorem both_name_and_id_counterexample :
    exceptOk (getMultiStub natNS
      [{ name := some "a", id := some "b", config := none }]) = true := rfl

/-- C8 (amended): at least one of `name` and `id` must be (truthily)
present: a config with neither yields the synchronous configuration error,
identically for every namespace; when a non-empty `name` is present the
config resolves by name — even if `id` is also present, which raises no
error. -/
theorem config_requires_name_or_id {V : Type} (ns : DurableObjectNamespace V)
    (c : MultiStubConfig) :
    (truthy c.name = false → truthy c.id = false →
      resolveStub ns c = .error "Either name or id must be provided for each DO config" ∧
      getMultiStub ns [c] = .error "Either name or id must be provided for each DO config") ∧
    (∀ nm : String, c.name = some nm → nm ≠ "" →
      resolveStub ns c = .ok (ns.get (ns.idFromName nm) c.config)) := by
  constructor
  · intro hn hi
    have hr : resolveStub ns c =
        .error "Either name or id must be provided for each DO config" := by
      simp [resolveStub, hn, hi]
    refine ⟨hr, ?_⟩
    simp only [getMultiStub]
    rw [hr]
    rfl
  · intro nm hnm hne
    simp [resolveStub, truthy, hnm, hne]

/-- Witness for the amended C8: the concrete config with neither name nor
id errors out. -/
theorem config_requires_name_or_id_witness :
    getMultiStub natNS [{ name := none, id := none, config := none }] =
      .error "Either name or id must be provided for each DO config" :=
  ((config_requires_name_or_id natNS
      { name := none, id := none, config := none }).1 rfl rfl).2
